import Mathlib

/-!
Verification of the checkout workflow of the `turing-backend` storefront
(shopping-cart controller and customer controller) against its
natural-language specification.  The JavaScript controllers are shallowly
embedded: each Express handler becomes a pure Lean function from an explicit
store state (the relevant database rows) and an environment (the outcomes of
the external gateway and mail calls) to an outcome record that lists the
HTTP response, the final rows, and the external calls that were made.
JavaScript numeric fields are `Int`, nullable columns are `Option`,
and JavaScript truthiness tests are modelled explicitly.
-/

namespace TuringBackend

/-- JS truthiness of a nullable numeric column: `null`/`undefined` and `0`
are falsy, every other number is truthy. -/
def jsTruthy : Option Int → Bool
  | none => false
  | some n => n != 0

/-- One `ShoppingCart` row: a cart line item (the cart exists only as its
rows, keyed by `cart_id`), joined with its product's price columns as in
`getCart`'s `findAll` include. -/
structure CartItem where
  item_id : Nat
  cart_id : String
  quantity : Int
  name : String
  price : Int
  discounted_price : Option Int
  deriving Repr, DecidableEq

/-- A `getCart` response element: the row plus the `subtotal` field the
handler assigns in its `forEach`. -/
structure CartItemResponse where
  item_id : Nat
  cart_id : String
  quantity : Int
  name : String
  price : Int
  discounted_price : Option Int
  subtotal : Int
  deriving Repr, DecidableEq

/-- The subtotal assignment in `getCart`:
`item.subtotal = item.discounted_price ? item.discounted_price * item.quantity
: item.price * item.quantity` — the discounted price is used whenever it is
truthy (present and nonzero), with no comparison against the unit price. -/
def itemSubtotal (it : CartItem) : Int :=
  if jsTruthy it.discounted_price then it.discounted_price.getD 0 * it.quantity
  else it.price * it.quantity

/-- `getCart`: select the rows of the requested cart and attach the computed
`subtotal` to each of them. -/
def getCart (rows : List CartItem) (cart_id : String) : List CartItemResponse :=
  (rows.filter (fun it => it.cart_id == cart_id)).map fun it =>
    { item_id := it.item_id, cart_id := it.cart_id, quantity := it.quantity,
      name := it.name, price := it.price, discounted_price := it.discounted_price,
      subtotal := itemSubtotal it }

/-- The per-item subtotal rule as the specification words it (§4.1):
quantity × unit price, using the discounted price when present and lower
than the unit price; a negative or missing discounted price is ignored. -/
def specSubtotal (it : CartItem) : Int :=
  match it.discounted_price with
  | some d => if 0 ≤ d ∧ d < it.price then d * it.quantity else it.price * it.quantity
  | none => it.price * it.quantity

/-- Error kinds for the machine-readable part of an error response.  The
first group are errors the controllers actually emit; `emptyCart` and
`orderAlreadySettled` are the error names the specification uses, listed so
that statements can compare against them — no controller branch produces
them. -/
inductive ErrKind
  | cartNotFound | shippingNotFound | taxNotFound | orderNotFound
  | cannotCreateOrder | emptyCart | orderAlreadySettled
  deriving Repr, DecidableEq

/-- A `createOrder` request: `customer_id` from the auth middleware,
the rest from the request body. -/
structure CreateOrderReq where
  customer_id : Nat
  cart_id : String
  shipping_id : Nat
  tax_id : Nat
  deriving Repr, DecidableEq

/-- A `createOrder` response: `201` with the new order id, or an error
payload `res.status(s).json({error: ...})`. -/
inductive CreateOrderResponse
  | created (order_id : Nat)
  | error (status : Nat) (kind : ErrKind)
  deriving Repr, DecidableEq

/-- Outcome of a `createOrder` call: the response together with whether the
`shopping_cart_create_order` stored procedure (the only statement that
inserts Order/OrderDetail rows) was executed. -/
structure CreateOrderOutcome where
  response : CreateOrderResponse
  procCalled : Bool
  deriving Repr, DecidableEq

/-- `ShoppingCart.findOne({where: {cart_id}})`: the first row of the cart,
or `none` when the cart has no rows (a cart exists only as its rows, so an
empty cart and an absent cart are the same thing at this query). -/
def findCart (rows : List CartItem) (cid : String) : Option CartItem :=
  rows.find? (fun it => it.cart_id == cid)

/-- In `createOrder` the calls `Shipping.findByPk(shipping_id)` and
`Tax.findByPk(tax_id)` are not awaited: the bound value is the pending
Promise, and a Promise is a non-null object, hence truthy in JS, whatever
the lookup would have resolved to.  This function is the truthiness of that
pending Promise; its argument, the value the lookup would resolve to, is
discarded exactly as the code discards it. -/
def pendingPromiseTruthy (_resolvesTo : Option Nat) : Bool := true

/-- `createOrder` (shoppingCart.controller.js, lines 500–552).
`procRows` is the row set returned by the
`CALL shopping_cart_create_order(...)` stored procedure when it is reached
(the procedure itself is database code outside the repository).  The guard
on the result is `order && order.length === 1`; a query result array is
always truthy, so only the length test matters. -/
def createOrder (rows : List CartItem) (shippings : List Nat) (taxes : List Nat)
    (procRows : List Nat) (req : CreateOrderReq) : CreateOrderOutcome :=
  match findCart rows req.cart_id with
  | none => ⟨.error 404 .cartNotFound, false⟩
  | some _ =>
    if !pendingPromiseTruthy (shippings.find? (· == req.shipping_id)) then
      ⟨.error 404 .shippingNotFound, false⟩
    else if !pendingPromiseTruthy (taxes.find? (· == req.tax_id)) then
      ⟨.error 404 .taxNotFound, false⟩
    else
      match procRows with
      | [oid] => ⟨.created oid, true⟩
      | _ => ⟨.error 500 .cannotCreateOrder, true⟩

/-- Order status values (`orders.status` semantics from the spec's state
machine; the column the settlement code would have to update). -/
inductive OrderStatus
  | created | paid | payment_failed
  deriving Repr, DecidableEq

/-- One `OrderDetail` row included by `processStripePayment`'s
`Order.findByPk` query. -/
structure OrderItem where
  product_name : String
  quantity : Int
  unit_cost : Int
  deriving Repr, DecidableEq

/-- One `Order` row, with its included `orderItems`. -/
structure Order where
  order_id : Nat
  total_amount : Int
  status : OrderStatus
  orderItems : List OrderItem
  deriving Repr, DecidableEq

/-- One `Customer` row, restricted to the columns
`processStripePayment` and `updateCreditCard` read. -/
structure Customer where
  customer_id : Nat
  name : String
  email : String
  credit_card : String
  city : String
  country : String
  address_1 : String
  address_2 : String
  postal_code : String
  region : String
  day_phone : String
  deriving Repr, DecidableEq

/-- The argument object of `stripe.charges.create`. -/
structure ChargeRequest where
  amount : Int
  currency : String
  source : String
  description : String
  deriving Repr, DecidableEq

/-- The Charge the gateway returns on success (the fields the claims are
about). -/
structure Charge where
  chargeId : String
  amount : Int
  currency : String
  description : String
  deriving Repr, DecidableEq

/-- Outcome of the awaited `stripe.charges.create` call: the resolved
Charge id, or a rejection (declined card, invalid token, network error),
which the `try`/`catch` turns into `next(error)`. -/
inductive GatewayResult
  | success (chargeId : String)
  | failure
  deriving Repr, DecidableEq

/-- Environment of one settlement call: what the two external collaborators
(gateway, mail transport) do if invoked. -/
structure PayEnv where
  gateway : GatewayResult
  mailOk : Bool
  deriving Repr, DecidableEq

/-- A `processStripePayment` request: body fields plus the authenticated
`customer_id`. -/
structure PayReq where
  email : Option String
  stripeToken : String
  order_id : Nat
  customer_id : Nat
  deriving Repr, DecidableEq

/-- A `processStripePayment` response: `200` with the charge, the `404`
order-not-found payload, or an error handed to `next()`. -/
inductive PayResponse
  | okCharge (c : Charge)
  | error (status : Nat) (kind : ErrKind)
  | nextErr
  deriving Repr, DecidableEq

/-- Outcome of one settlement call: the response, the final `orders` rows,
the requests sent to the gateway, and the successful gateway charges that
exist afterwards. -/
structure PayOutcome where
  response : PayResponse
  orders : List Order
  gatewayCalls : List ChargeRequest
  charges : List Charge
  deriving Repr, DecidableEq

/-- `Order.findByPk(order_id, ...)`. -/
def findOrder (orders : List Order) (oid : Nat) : Option Order :=
  orders.find? (fun o => o.order_id == oid)

/-- `Customer.findByPk(customer_id)`. -/
def findCustomer (customers : List Customer) (cid : Nat) : Option Customer :=
  customers.find? (fun c => c.customer_id == cid)

/-- JS `email || customer.email`: the body's email unless it is absent or
the empty string (both falsy). -/
def jsEmailOr (bodyEmail : Option String) (customerEmail : String) : String :=
  match bodyEmail with
  | some e => if e = "" then customerEmail else e
  | none => customerEmail

/-- The `description` string of the charge request:
`Charge for ${customer.name} at ${stripeEmail} for order ${order_id}`. -/
def chargeDescription (name email : String) (oid : Nat) : String :=
  "Charge for " ++ name ++ " at " ++ email ++ " for order " ++ toString oid

/-- The database rows a settlement call can read. -/
structure PayState where
  orders : List Order
  customers : List Customer
  deriving Repr, DecidableEq

/-- `processStripePayment` (shoppingCart.controller.js, lines 612–679).
Step by step from the source: load the order (404 if absent); load the
customer (`customer.email` on a `null` customer throws a TypeError, caught
by the outer `catch` into `next(error)`); build the charge request with
`amount: order.total_amount * 100`, `currency: 'aud'`, `source: stripeToken`
and the order-referencing description, and await the gateway (a rejection is
caught into `next(error)`); then send the confirmation mail — on mail
success respond `200` with the charge, on mail failure call `next(err)`.
No branch reads or writes `order.status`, and no branch refunds the charge. -/
def processStripePayment (st : PayState) (env : PayEnv) (req : PayReq) : PayOutcome :=
  match findOrder st.orders req.order_id with
  | none => ⟨.error 404 .orderNotFound, st.orders, [], []⟩
  | some order =>
    match findCustomer st.customers req.customer_id with
    | none => ⟨.nextErr, st.orders, [], []⟩
    | some customer =>
      let stripeEmail := jsEmailOr req.email customer.email
      let creq : ChargeRequest :=
        { amount := order.total_amount * 100
          currency := "aud"
          source := req.stripeToken
          description := chargeDescription customer.name stripeEmail req.order_id }
      match env.gateway with
      | .failure => ⟨.nextErr, st.orders, [creq], []⟩
      | .success cid =>
        let charge : Charge := ⟨cid, creq.amount, creq.currency, creq.description⟩
        if env.mailOk then ⟨.okCharge charge, st.orders, [creq], [charge]⟩
        else ⟨.nextErr, st.orders, [creq], [charge]⟩

/-- The regex replace `credit_card.replace(/.(?=.{4,}$)/g, 'x')`: every
character that is followed by at least four more characters becomes `'x'`,
so only the last four characters stay visible. -/
def maskChars : List Char → List Char
  | [] => []
  | c :: cs => (if 4 ≤ cs.length then 'x' else c) :: maskChars cs

/-- `hiddenCreditCard` as computed in `updateCreditCard`. -/
def hiddenCreditCard (s : String) : String :=
  ⟨maskChars s.data⟩

/-- The customer fields echoed by the `updateCreditCard` response
(`getSafeDataValues()` spread, with the `credit_card` property overridden
by the string the handler builds). -/
structure CustomerCardResponse where
  customer_id : Nat
  name : String
  email : String
  credit_card : String
  deriving Repr, DecidableEq

/-- An `updateCreditCard` response: `200` with the customer payload, or an
error handed to `next()` (e.g. `customer.update` on a `null` customer). -/
inductive UpdateCardResponse
  | ok (c : CustomerCardResponse)
  | nextErr
  deriving Repr, DecidableEq

/-- Outcome of `updateCreditCard`: the response and the final customer
rows. -/
structure UpdateCardOutcome where
  response : UpdateCardResponse
  customers : List Customer
  deriving Repr, DecidableEq

/-- `updateCreditCard` (customer.controller.js, lines 266–287): load the
customer, persist `credit_card` from the body, then respond with the safe
data values whose `credit_card` property is the template string
`${updatedCustomer.credit_card}, (${hiddenCreditCard})` — the full stored
number, a comma, and the masked form in parentheses. -/
def updateCreditCard (customers : List Customer) (customer_id : Nat)
    (credit_card : String) : UpdateCardOutcome :=
  match findCustomer customers customer_id with
  | none => ⟨.nextErr, customers⟩
  | some c =>
    let updated : Customer := { c with credit_card := credit_card }
    ⟨.ok { customer_id := c.customer_id, name := c.name, email := c.email,
           credit_card := updated.credit_card ++ ", (" ++
             hiddenCreditCard updated.credit_card ++ ")" },
     customers.map fun d => if d.customer_id == customer_id then updated else d⟩

/-! Sample rows used by the concrete counterexamples and witnesses. -/

/-- A cart row whose discounted price (15) is higher than its unit
price (10). -/
def exDiscountItem : CartItem :=
  { item_id := 1, cart_id := "cart1", quantity := 2, name := "Widget",
    price := 10, discounted_price := some 15 }

/-- The `getCart` response row produced from `exDiscountItem`. -/
def exDiscountResp : CartItemResponse :=
  { item_id := 1, cart_id := "cart1", quantity := 2, name := "Widget",
    price := 10, discounted_price := some 15, subtotal := 30 }

/-- The per-item subtotal rule the code actually implements, stated in the
words of the amended claim: quantity × discounted price whenever the
discounted price is present and nonzero — even when it is negative or not
lower than the unit price — and quantity × unit price otherwise. -/
def amendedSubtotalRule (quantity price : Int) (discounted_price : Option Int) : Int :=
  match discounted_price with
  | some d => if d ≠ 0 then d * quantity else price * quantity
  | none => price * quantity

/-- Claim C4, counterexample: for the cart row with unit price 10, discounted
price 15 and quantity 2, `getCart` returns subtotal 30 (= 15 × 2), while
the spec's rule — use the discounted price only when it is lower than the
unit price — gives 20; so the claimed subtotal rule is false on the code. -/
theorem getCart_subtotal_spec_rule_fails :
    (getCart [exDiscountItem] "cart1").map (fun r => r.subtotal) = [30] ∧
    specSubtotal exDiscountItem = 20 ∧ (30 : Int) ≠ 20 := by
  refine ⟨rfl, rfl, by decide⟩

/-- Claim C4 (amended): every item returned by `getCart` has
subtotal = quantity × discounted price whenever the discounted price is
present and nonzero — even when negative or not lower than the unit
price — and quantity × unit price otherwise. -/
theorem getCart_subtotal_amended (rows : List CartItem) (cid : String)
    (r : CartItemResponse) (hr : r ∈ getCart rows cid) :
    r.subtotal = amendedSubtotalRule r.quantity r.price r.discounted_price := by
  unfold getCart at hr
  obtain ⟨it, hit, rfl⟩ := List.mem_map.mp hr
  show itemSubtotal it = amendedSubtotalRule it.quantity it.price it.discounted_price
  unfold itemSubtotal jsTruthy amendedSubtotalRule
  cases it.discounted_price with
  | none => simp
  | some d =>
    by_cases hd : d = 0
    · subst hd; simp
    · simp [hd]

/-- Witness for C4 (amended) at the concrete cart row `exDiscountItem`. -/
theorem getCart_subtotal_amended_witness :
    exDiscountResp.subtotal =
      amendedSubtotalRule exDiscountResp.quantity exDiscountResp.price
        exDiscountResp.discounted_price :=
  getCart_subtotal_amended [exDiscountItem] "cart1" exDiscountResp (by decide)

/-- A cart row of cart `cart9`, used by the `createOrder` theorems. -/
def exCartRow : CartItem :=
  { item_id := 2, cart_id := "cart9", quantity := 1, name := "Gadget",
    price := 5, discounted_price := none }

/-- Claim C3: the shipping/tax existence guards of `createOrder` are dead code —
`findByPk` is not awaited, so the truthiness test sees the pending Promise.
At the failing input (cart `cart9` present, shipping table and tax table
both empty, `shipping_id = 99`, `tax_id = 55`) the call is not rejected
with the 404 shipping/tax error: it runs the order-creating procedure and
responds 201. -/
theorem createOrder_missing_shipping_tax_not_rejected :
    createOrder [exCartRow] [] [] [42]
      { customer_id := 7, cart_id := "cart9", shipping_id := 99, tax_id := 55 } =
      ⟨.created 42, true⟩ ∧
    (CreateOrderResponse.created 42 ≠ .error 404 .shippingNotFound ∧
     CreateOrderResponse.created 42 ≠ .error 404 .taxNotFound) := by
  exact ⟨rfl, by decide, by decide⟩

/-- Claim C6, counterexample: a cart with zero rows fails with the 404
cart-not-found error (`Shopping cart with id ... does not exist`), which is
not an `EmptyCart` error — the code has a single guard and cannot
distinguish an empty cart from an absent one. -/
theorem createOrder_empty_cart_error_is_cartNotFound :
    createOrder [] [3] [5] [42]
      { customer_id := 7, cart_id := "cart1", shipping_id := 3, tax_id := 5 } =
      ⟨.error 404 .cartNotFound, false⟩ ∧
    ErrKind.cartNotFound ≠ ErrKind.emptyCart :=
  ⟨rfl, by decide⟩

/-- Claim C6 (amended): materializing an order from a cart with zero rows always
fails with the 404 cart-not-found error (there is no distinct `EmptyCart`
error) and the order-creating stored procedure is not executed, so zero
Order/OrderDetail rows are created; an empty cart never produces an
order. -/
theorem createOrder_empty_cart_fails (rows : List CartItem)
    (shippings taxes procRows : List Nat) (req : CreateOrderReq)
    (h : ∀ it ∈ rows, it.cart_id ≠ req.cart_id) :
    createOrder rows shippings taxes procRows req =
      ⟨.error 404 .cartNotFound, false⟩ := by
  have hfind : findCart rows req.cart_id = none := by
    unfold findCart
    refine List.find?_eq_none.mpr fun it hit => ?_
    simp [h it hit]
  unfold createOrder
  rw [hfind]

/-- Witness for C6 (amended): a store whose only cart row belongs to
`cart9` has no rows for `cartZ`, and materializing `cartZ` fails with the
404 cart-not-found error without running the procedure. -/
theorem createOrder_empty_cart_fails_witness :
    createOrder [exCartRow] [3] [5] [42]
      { customer_id := 7, cart_id := "cartZ", shipping_id := 3, tax_id := 5 } =
      ⟨.error 404 .cartNotFound, false⟩ :=
  createOrder_empty_cart_fails [exCartRow] [3] [5] [42]
    { customer_id := 7, cart_id := "cartZ", shipping_id := 3, tax_id := 5 }
    (by decide)

/-- A concrete customer row. -/
def sampleCustomer : Customer :=
  { customer_id := 7, name := "Jane Roe", email := "jane@example.com",
    credit_card := "", city := "Sydney", country := "Australia",
    address_1 := "1 Main St", address_2 := "", postal_code := "2000",
    region := "NSW", day_phone := "0400000000" }

/-- A concrete order that has already been settled (status `paid`),
total 29. -/
def paidOrder : Order :=
  { order_id := 11, total_amount := 29, status := .paid,
    orderItems := [⟨"Widget", 1, 29⟩] }

/-- A concrete freshly materialized order (status `created`), total 29. -/
def createdOrder : Order :=
  { order_id := 12, total_amount := 29, status := .created,
    orderItems := [⟨"Widget", 1, 29⟩] }

/-- A settlement request for order 11 (`paidOrder`) by customer 7. -/
def payReq11 : PayReq :=
  { email := none, stripeToken := "tok_visa", order_id := 11, customer_id := 7 }

/-- A settlement request for order 12 (`createdOrder`) by customer 7. -/
def payReq12 : PayReq :=
  { email := none, stripeToken := "tok_visa", order_id := 12, customer_id := 7 }

/-- When the order and the customer are both found, the settlement call
sends the gateway exactly one charge request, built from the order's total,
the fixed currency, the body's token, and the order-referencing
description — whatever the gateway and the mail transport then do. -/
theorem stripePayment_gatewayCalls_shape (st : PayState) (env : PayEnv)
    (req : PayReq) (o : Order) (c : Customer)
    (ho : findOrder st.orders req.order_id = some o)
    (hc : findCustomer st.customers req.customer_id = some c) :
    (processStripePayment st env req).gatewayCalls =
      [{ amount := o.total_amount * 100, currency := "aud",
         source := req.stripeToken,
         description := chargeDescription c.name (jsEmailOr req.email c.email)
           req.order_id }] := by
  obtain ⟨gw, mail⟩ := env
  cases gw with
  | success cid => cases mail <;> simp [processStripePayment, ho, hc]
  | failure => simp [processStripePayment, ho, hc]

/-- When the order is absent, the settlement call is the 404 with no
gateway call, no charge, and untouched rows. -/
theorem stripePayment_order_none (st : PayState) (env : PayEnv) (req : PayReq)
    (ho : findOrder st.orders req.order_id = none) :
    processStripePayment st env req =
      ⟨.error 404 .orderNotFound, st.orders, [], []⟩ := by
  simp [processStripePayment, ho]

/-- When the customer lookup returns `null`, reading `customer.email`
throws and the call ends in `next(error)` with no gateway call. -/
theorem stripePayment_customer_none (st : PayState) (env : PayEnv)
    (req : PayReq) (o : Order)
    (ho : findOrder st.orders req.order_id = some o)
    (hc : findCustomer st.customers req.customer_id = none) :
    processStripePayment st env req = ⟨.nextErr, st.orders, [], []⟩ := by
  simp [processStripePayment, ho, hc]

/-- No branch of the settlement handler writes the `orders` rows: the rows
after the call are the rows before it. -/
theorem stripePayment_orders_unchanged (st : PayState) (env : PayEnv)
    (req : PayReq) :
    (processStripePayment st env req).orders = st.orders := by
  obtain ⟨gw, mail⟩ := env
  cases ho : findOrder st.orders req.order_id with
  | none => simp [processStripePayment, ho]
  | some o =>
    cases hc : findCustomer st.customers req.customer_id with
    | none => simp [processStripePayment, ho, hc]
    | some c =>
      cases gw with
      | success cid => cases mail <;> simp [processStripePayment, ho, hc]
      | failure => simp [processStripePayment, ho, hc]

/-- Claim C1, counterexample: order 11 is `paid` (status ≠ `created`), yet the
settlement call invokes the gateway (one charge request) and responds with
a fresh successful charge instead of rejecting with `OrderAlreadySettled`;
so a second settle call on a paid order succeeds and a second successful
charge exists. -/
theorem stripePayment_paid_order_charged_again :
    paidOrder.status ≠ OrderStatus.created ∧
    (processStripePayment ⟨[paidOrder], [sampleCustomer]⟩ ⟨.success "ch_1", true⟩
      payReq11).gatewayCalls.length = 1 ∧
    (processStripePayment ⟨[paidOrder], [sampleCustomer]⟩ ⟨.success "ch_1", true⟩
      payReq11).response =
      .okCharge ⟨"ch_1", 2900, "aud",
        chargeDescription "Jane Roe" "jane@example.com" 11⟩ ∧
    (processStripePayment ⟨[paidOrder], [sampleCustomer]⟩ ⟨.success "ch_1", true⟩
      payReq11).charges.length = 1 :=
  ⟨by decide, rfl, rfl, rfl⟩

/-- Claim C1 (amended): `processStripePayment` never inspects the order's status.
Whenever the order (of any status) and the customer are found, the gateway
is invoked exactly once, and — since the call leaves the order rows
untouched — an immediately repeated settle call invokes the gateway once
again; there is no `OrderAlreadySettled` rejection, so one successful
charge per order is not enforced. -/
theorem stripePayment_no_settlement_guard (st : PayState) (env : PayEnv)
    (req : PayReq) (o : Order) (c : Customer)
    (ho : findOrder st.orders req.order_id = some o)
    (hc : findCustomer st.customers req.customer_id = some c) :
    (processStripePayment st env req).gatewayCalls.length = 1 ∧
    (processStripePayment ⟨(processStripePayment st env req).orders, st.customers⟩
      env req).gatewayCalls.length = 1 := by
  have h2 := stripePayment_orders_unchanged st env req
  refine ⟨?_, ?_⟩
  · rw [stripePayment_gatewayCalls_shape st env req o c ho hc]; rfl
  · have ho2 : findOrder (processStripePayment st env req).orders req.order_id
        = some o := by rw [h2]; exact ho
    rw [stripePayment_gatewayCalls_shape
      ⟨(processStripePayment st env req).orders, st.customers⟩ env req o c ho2 hc]
    rfl

/-- Witness for C1 (amended) at the concrete paid order 11. -/
theorem stripePayment_no_settlement_guard_witness :
    (processStripePayment ⟨[paidOrder], [sampleCustomer]⟩ ⟨.success "ch_9", true⟩
      payReq11).gatewayCalls.length = 1 ∧
    (processStripePayment
      ⟨(processStripePayment ⟨[paidOrder], [sampleCustomer]⟩
          ⟨.success "ch_9", true⟩ payReq11).orders, [sampleCustomer]⟩
      ⟨.success "ch_9", true⟩ payReq11).gatewayCalls.length = 1 :=
  stripePayment_no_settlement_guard ⟨[paidOrder], [sampleCustomer]⟩
    ⟨.success "ch_9", true⟩ payReq11 paidOrder sampleCustomer rfl rfl

/-- Claim C2, counterexample: settling the `created` order 12 with a succeeding
gateway returns the charge, but the order rows afterwards are unchanged —
order 12 still has status `created`, not `paid`. -/
theorem stripePayment_success_leaves_created :
    (processStripePayment ⟨[createdOrder], [sampleCustomer]⟩ ⟨.success "ch_1", true⟩
      payReq12).response =
      .okCharge ⟨"ch_1", 2900, "aud",
        chargeDescription "Jane Roe" "jane@example.com" 12⟩ ∧
    (processStripePayment ⟨[createdOrder], [sampleCustomer]⟩ ⟨.success "ch_1", true⟩
      payReq12).orders = [createdOrder] ∧
    createdOrder.status = OrderStatus.created ∧
    OrderStatus.created ≠ OrderStatus.paid :=
  ⟨rfl, rfl, rfl, by decide⟩

/-- Claim C2 (amended): the settlement call never updates the order rows — after
any settle call the rows (hence every status) are exactly as before, so no
transition to `paid` or `payment_failed` ever happens; a failing gateway
additionally produces zero charges and hands the error to `next()`. -/
theorem stripePayment_no_status_transition (st : PayState) (env : PayEnv)
    (req : PayReq) (o : Order) (c : Customer) (mail : Bool)
    (ho : findOrder st.orders req.order_id = some o)
    (hc : findCustomer st.customers req.customer_id = some c) :
    (processStripePayment st env req).orders = st.orders ∧
    (processStripePayment st ⟨.failure, mail⟩ req).charges = [] ∧
    (processStripePayment st ⟨.failure, mail⟩ req).response = .nextErr := by
  refine ⟨stripePayment_orders_unchanged st env req, ?_, ?_⟩ <;>
    simp [processStripePayment, ho, hc]

/-- Witness for C2 (amended) at order 12 with a declining gateway. -/
theorem stripePayment_no_status_transition_witness :
    (processStripePayment ⟨[createdOrder], [sampleCustomer]⟩ ⟨.failure, true⟩
      payReq12).orders = [createdOrder] ∧
    (processStripePayment ⟨[createdOrder], [sampleCustomer]⟩ ⟨.failure, true⟩
      payReq12).charges = [] ∧
    (processStripePayment ⟨[createdOrder], [sampleCustomer]⟩ ⟨.failure, true⟩
      payReq12).response = .nextErr :=
  stripePayment_no_status_transition ⟨[createdOrder], [sampleCustomer]⟩
    ⟨.failure, true⟩ payReq12 createdOrder sampleCustomer true rfl rfl

/-- Claim C5, counterexample: with a succeeding gateway and a failing mail send,
the handler responds through `next(err)` — an error, not a success response
with a warning flag — even though the successful charge exists. -/
theorem stripePayment_mail_failure_is_error_response :
    (processStripePayment ⟨[createdOrder], [sampleCustomer]⟩ ⟨.success "ch_2", false⟩
      payReq12).response = .nextErr ∧
    (processStripePayment ⟨[createdOrder], [sampleCustomer]⟩ ⟨.success "ch_2", false⟩
      payReq12).charges.length = 1 ∧
    PayResponse.nextErr ≠ .okCharge ⟨"ch_2", 2900, "aud",
      chargeDescription "Jane Roe" "jane@example.com" 12⟩ :=
  ⟨rfl, rfl, by simp⟩

/-- Claim C5 (amended): when the gateway succeeds but the confirmation mail send
fails, the error is forwarded to `next()` (the caller gets an error, not a
success-with-warning); the successful charge is not rolled back — it still
exists — and the order rows are unchanged. -/
theorem stripePayment_mail_failure_no_rollback (st : PayState) (req : PayReq)
    (o : Order) (c : Customer) (cid : String)
    (ho : findOrder st.orders req.order_id = some o)
    (hc : findCustomer st.customers req.customer_id = some c) :
    (processStripePayment st ⟨.success cid, false⟩ req).response = .nextErr ∧
    (processStripePayment st ⟨.success cid, false⟩ req).charges.length = 1 ∧
    (processStripePayment st ⟨.success cid, false⟩ req).orders = st.orders := by
  refine ⟨?_, ?_, stripePayment_orders_unchanged st ⟨.success cid, false⟩ req⟩ <;>
    simp [processStripePayment, ho, hc]

/-- Witness for C5 (amended) at order 12 with gateway success and mail
failure. -/
theorem stripePayment_mail_failure_no_rollback_witness :
    (processStripePayment ⟨[createdOrder], [sampleCustomer]⟩ ⟨.success "ch_3", false⟩
      payReq12).response = .nextErr ∧
    (processStripePayment ⟨[createdOrder], [sampleCustomer]⟩ ⟨.success "ch_3", false⟩
      payReq12).charges.length = 1 ∧
    (processStripePayment ⟨[createdOrder], [sampleCustomer]⟩ ⟨.success "ch_3", false⟩
      payReq12).orders = [createdOrder] :=
  stripePayment_mail_failure_no_rollback ⟨[createdOrder], [sampleCustomer]⟩
    payReq12 createdOrder sampleCustomer "ch_3" rfl rfl

/-- The charge request the settlement of order 12 (total 29) sends. -/
def exChargeReq : ChargeRequest :=
  { amount := 2900, currency := "aud", source := "tok_visa",
    description := chargeDescription "Jane Roe" "jane@example.com" 12 }

/-- Claim C7: every charge request a settlement call sends to the gateway carries
`amount = total_amount * 100` (the order's total in the gateway's smallest
currency unit) and a description that references the order identifier (the
decimal order id is a suffix of the description string). -/
theorem stripePayment_charge_amount_and_description (st : PayState)
    (env : PayEnv) (req : PayReq) (o : Order) (creq : ChargeRequest)
    (ho : findOrder st.orders req.order_id = some o)
    (hm : creq ∈ (processStripePayment st env req).gatewayCalls) :
    creq.amount = o.total_amount * 100 ∧
    (toString req.order_id).data <:+ creq.description.data := by
  cases hc : findCustomer st.customers req.customer_id with
  | none => rw [stripePayment_customer_none st env req o ho hc] at hm; cases hm
  | some c =>
    rw [stripePayment_gatewayCalls_shape st env req o c ho hc] at hm
    rcases List.mem_singleton.mp hm with rfl
    refine ⟨rfl, ?_⟩
    show (toString req.order_id).data <:+
      (chargeDescription c.name (jsEmailOr req.email c.email) req.order_id).data
    unfold chargeDescription
    rw [String.data_append]
    exact List.suffix_append _ _

/-- Witness for C7: the spec's scenario — an order with total 29 yields a
gateway amount of 2900 minor units, and the description ends in the order
id 12. -/
theorem stripePayment_charge_amount_witness :
    exChargeReq.amount = createdOrder.total_amount * 100 ∧
    (toString payReq12.order_id).data <:+ exChargeReq.description.data :=
  stripePayment_charge_amount_and_description
    ⟨[createdOrder], [sampleCustomer]⟩ ⟨.success "ch_1", true⟩ payReq12
    createdOrder exChargeReq rfl (List.mem_singleton.mpr rfl)

/-- Claim C8: a settlement call whose `order_id` matches no order responds with
the 404 order-not-found error, makes no gateway call, creates no charge,
and leaves the rows untouched. -/
theorem stripePayment_unknown_order_404 (st : PayState) (env : PayEnv)
    (req : PayReq) (ho : findOrder st.orders req.order_id = none) :
    processStripePayment st env req =
      ⟨.error 404 .orderNotFound, st.orders, [], []⟩ :=
  stripePayment_order_none st env req ho

/-- Witness for C8: settling order 99, which does not exist, against a
store holding only order 12. -/
theorem stripePayment_unknown_order_404_witness :
    processStripePayment ⟨[createdOrder], [sampleCustomer]⟩ ⟨.success "ch_1", true⟩
      { email := none, stripeToken := "tok_visa", order_id := 99, customer_id := 7 } =
      ⟨.error 404 .orderNotFound, [createdOrder], [], []⟩ :=
  stripePayment_unknown_order_404 ⟨[createdOrder], [sampleCustomer]⟩
    ⟨.success "ch_1", true⟩
    { email := none, stripeToken := "tok_visa", order_id := 99, customer_id := 7 }
    rfl

/-- Claim C10: every charge request a settlement call sends to the gateway has
the hard-coded currency `'aud'`, whatever the store rows, the environment
and the request inputs are. -/
theorem stripePayment_currency_always_aud (st : PayState) (env : PayEnv)
    (req : PayReq) (creq : ChargeRequest)
    (hm : creq ∈ (processStripePayment st env req).gatewayCalls) :
    creq.currency = "aud" := by
  cases ho : findOrder st.orders req.order_id with
  | none => rw [stripePayment_order_none st env req ho] at hm; cases hm
  | some o =>
    cases hc : findCustomer st.customers req.customer_id with
    | none => rw [stripePayment_customer_none st env req o ho hc] at hm; cases hm
    | some c =>
      rw [stripePayment_gatewayCalls_shape st env req o c ho hc] at hm
      rcases List.mem_singleton.mp hm with rfl
      rfl

/-- Witness for C10 at the concrete settlement of order 11. -/
theorem stripePayment_currency_always_aud_witness :
    ({ amount := 2900, currency := "aud", source := "tok_visa",
       description := chargeDescription "Jane Roe" "jane@example.com" 11 }
      : ChargeRequest).currency = "aud" :=
  stripePayment_currency_always_aud ⟨[paidOrder], [sampleCustomer]⟩
    ⟨.failure, true⟩ payReq11
    { amount := 2900, currency := "aud", source := "tok_visa",
      description := chargeDescription "Jane Roe" "jane@example.com" 11 }
    (List.mem_singleton.mpr rfl)

/-- Claim C9, counterexample: updating customer 7's card to `1234567890123456`
responds with the credit_card field
`1234567890123456, (xxxxxxxxxxxx3456)` — the full card number (a prefix of
the echoed string) followed by the masked form, so the response reveals the
whole card number, not only the partially obscured digits. -/
theorem updateCreditCard_echoes_full_number :
    (updateCreditCard [sampleCustomer] 7 "1234567890123456").response =
      .ok ⟨7, "Jane Roe", "jane@example.com",
        "1234567890123456, (xxxxxxxxxxxx3456)"⟩ ∧
    ("1234567890123456").data <+: ("1234567890123456, (xxxxxxxxxxxx3456)").data ∧
    "1234567890123456, (xxxxxxxxxxxx3456)" ≠
      hiddenCreditCard "1234567890123456" := by
  refine ⟨by decide, by decide, by decide⟩

/-- Claim C9 (amended): whenever `updateCreditCard` responds `200`, the echoed
credit_card field is the full stored card number, a comma, and the masked
form in parentheses — in particular the full card number is a prefix of
what the response reveals. -/
theorem updateCreditCard_response_reveals_card (customers : List Customer)
    (cid : Nat) (card : String) (r : CustomerCardResponse)
    (hr : (updateCreditCard customers cid card).response = .ok r) :
    r.credit_card = card ++ ", (" ++ hiddenCreditCard card ++ ")" ∧
    card.data <+: r.credit_card.data := by
  cases hc : findCustomer customers cid with
  | none => simp [updateCreditCard, hc] at hr
  | some c =>
    simp only [updateCreditCard, hc] at hr
    rcases hr with ⟨rfl⟩
    refine ⟨rfl, ?_⟩
    show card.data <+: (card ++ ", (" ++ hiddenCreditCard card ++ ")").data
    simp only [String.data_append, List.append_assoc]
    exact List.prefix_append _ _

/-- Witness for C9 (amended) at the concrete card `9876543210`. -/
theorem updateCreditCard_response_reveals_card_witness :
    (CustomerCardResponse.mk 7 "Jane Roe" "jane@example.com"
        ("9876543210" ++ ", (" ++ hiddenCreditCard "9876543210" ++ ")")).credit_card =
      "9876543210" ++ ", (" ++ hiddenCreditCard "9876543210" ++ ")" ∧
    ("9876543210").data <+:
      (CustomerCardResponse.mk 7 "Jane Roe" "jane@example.com"
        ("9876543210" ++ ", (" ++ hiddenCreditCard "9876543210" ++ ")")).credit_card.data :=
  updateCreditCard_response_reveals_card [sampleCustomer] 7 "9876543210"
    (CustomerCardResponse.mk 7 "Jane Roe" "jane@example.com"
      ("9876543210" ++ ", (" ++ hiddenCreditCard "9876543210" ++ ")")) rfl

end TuringBackend
